import Mathlib

/-!
Shallow embedding of the BrickBase building-management server
(`src/index.js`): the tenancy-agreement lifecycle, the role-based
access-control gates, and the occupancy statistics, together with
theorems settling the specification claims about them.

Modelling conventions:
* MongoDB collections become Lean lists; `findOne` is `List.find?`
  (first match), `insertOne` appends, `updateOne` rewrites the first
  matching element.
* Mongo `ObjectId` values are modelled as `Nat` (the routes under
  scrutiny are only exercised with well-formed ids).
* JavaScript truthiness of strings (`undefined` and `""` are falsy)
  is modelled explicitly wherever the source relies on it
  (`status || "checked"`, `if (userEmail)`, missing bearer tokens).
* Timestamps (`new Date()`) are modelled as a `Nat` supplied to the
  handler.
-/

namespace BrickBase

/-- A document of the `users` collection: `email` is the natural key,
`role` is one of `"user" | "member" | "admin"` (src/index.js stores it
as a free-form string). -/
structure User where
  email : String
  role : String
deriving DecidableEq, Repr

/-- A document of the `agreements` collection.  `oid` models the Mongo
`_id`; `acceptedDate` is absent (`none`) until some write sets it. -/
structure Agreement where
  oid : Nat
  email : String
  blockName : String
  apartmentNo : String
  status : String
  acceptedDate : Option Nat
deriving DecidableEq, Repr

/-- A document of the `apartments` collection (only the fields the
stats route reads). -/
structure Apartment where
  blockName : String
  apartmentNo : String
deriving DecidableEq, Repr

/-- The durable store visible to the agreement lifecycle: the `users`
and `agreements` collections. -/
structure Db where
  users : List User
  agreements : List Agreement
deriving DecidableEq, Repr

/-! ## Identity verifier (`verifyFirebaseToken`, src/index.js lines 71-89) -/

/-- Outcome of the credential middleware: either a verified principal
(the decoded email), a 401 (`Unauthorized Access`), or a 403
(`Forbidden Access`). -/
inductive AuthResult where
  | ok (email : String)
  | unauthenticated
  | forbidden
deriving DecidableEq, Repr

/-- Split a character list at every occurrence of `sep`, like
JavaScript `String.prototype.split` with a one-character separator
(adjacent separators yield empty pieces, a trailing separator yields a
trailing empty piece). -/
def splitCharsOn (sep : Char) : List Char → List Char → List (List Char)
  | [], acc => [acc.reverse]
  | c :: cs, acc =>
    if c = sep then acc.reverse :: splitCharsOn sep cs []
    else splitCharsOn sep cs (c :: acc)

/-- JavaScript `s.split(" ")`. -/
def jsSplitSpace (s : String) : List String :=
  (splitCharsOn ' ' s.data []).map String.mk

/-- `verifyFirebaseToken`: the identity provider
(`admin.auth().verifyIdToken`) is abstracted as a function
`verifyIdToken : String → Option String` returning the decoded email on
success and `none` when it throws.  A missing or falsy (empty) header
yields 401; a header whose second space-separated part
(`authHeader.split(" ")[1]`) is missing or empty yields 401; a present
token the provider rejects yields 403. -/
def verifyFirebaseToken (verifyIdToken : String → Option String)
    (authHeader : Option String) : AuthResult :=
  match authHeader with
  | none => .unauthenticated
  | some h =>
    if h == "" then .unauthenticated
    else
      match (jsSplitSpace h)[1]? with
      | none => .unauthenticated
      | some t =>
        if t == "" then .unauthenticated
        else
          match verifyIdToken t with
          | some email => .ok email
          | none => .forbidden

/-- The token the middleware would extract from the authorization
header, `none` when the header is missing/falsy or holds no (truthy)
second space-separated part.  This packages lines 72-79 of the source
so the asymmetry theorem can quantify over it. -/
def extractToken (authHeader : Option String) : Option String :=
  match authHeader with
  | none => none
  | some h =>
    if h == "" then none
    else
      match (jsSplitSpace h)[1]? with
      | none => none
      | some t => if t == "" then none else some t

/-! ## Role gates (`verifyUser` / `verifyMember` / `verifyAdmin`,
src/index.js lines 92-124).  Each returns `true` when the gate lets the
request through and `false` when it answers 403. -/

/-- `verifyUser`: passes iff the user record found by email exists and
its role is exactly `"user"`. -/
def verifyUser (users : List User) (email : String) : Bool :=
  match users.find? (fun u => u.email == email) with
  | none => false
  | some u => u.role == "user"

/-- `verifyMember`: passes iff the user record found by email exists
and its role is exactly `"member"`. -/
def verifyMember (users : List User) (email : String) : Bool :=
  match users.find? (fun u => u.email == email) with
  | none => false
  | some u => u.role == "member"

/-- `verifyAdmin`: passes iff the user record found by email exists and
its role is exactly `"admin"`. -/
def verifyAdmin (users : List User) (email : String) : Bool :=
  match users.find? (fun u => u.email == email) with
  | none => false
  | some u => u.role == "admin"

/-! ## Agreement creation (`app.post("/agreements")`, src/index.js
lines 224-275) -/

/-- Outcome of the POST /agreements handler body: the two 400
rejections, or success (the Mongo insert acknowledgement). -/
inductive PostAgreementResult where
  | duplicateAgreement
  | apartmentOccupied
  | created
deriving DecidableEq, Repr

/-- The POST /agreements handler body (after the `verifyFirebaseToken`
and `verifyUser` gates).  Step 1: reject when the submitter's email
already owns a `pending`/`checked` agreement.  Step 2: among `checked`
agreements for the same `(blockName, apartmentNo)`, reject when some
user record carries one of their emails with role `"member"`.
Otherwise `insertOne(agreementData)` — the request body is persisted
verbatim, its `status` field included. -/
def postAgreement (db : Db) (body : Agreement) : PostAgreementResult × Db :=
  match db.agreements.find? (fun a =>
      a.email == body.email && (a.status == "pending" || a.status == "checked")) with
  | some _ => (.duplicateAgreement, db)
  | none =>
    let checkedAgreements := db.agreements.filter (fun a =>
      a.blockName == body.blockName && a.apartmentNo == body.apartmentNo &&
      a.status == "checked")
    if checkedAgreements.length > 0 then
      let emails := checkedAgreements.map Agreement.email
      match db.users.find? (fun u => emails.contains u.email && u.role == "member") with
      | some _ => (.apartmentOccupied, db)
      | none => (.created, { db with agreements := db.agreements ++ [body] })
    else
      (.created, { db with agreements := db.agreements ++ [body] })

/-! ## Admin decision (`app.patch("/agreements/:id")`, src/index.js
lines 278-329) -/

/-- The destructured PATCH request body `{ status, role }`; either
field may be absent. -/
structure PatchBody where
  status : Option String
  role : Option String
deriving DecidableEq, Repr

/-- JavaScript `v || d` on an optional string: `undefined` and the
empty string are falsy and give the default. -/
def jsOrDefault (v : Option String) (d : String) : String :=
  match v with
  | none => d
  | some s => if s == "" then d else s

/-- The `$set` update document of the PATCH handler applied to one
agreement: `status` becomes `status || "checked"`, and when the
supplied role is `"member"` the handler also sets `acceptedDate` to the
current time. -/
def applyPatchFields (body : PatchBody) (now : Nat) (a : Agreement) : Agreement :=
  if body.role == some "member" then
    { a with status := jsOrDefault body.status "checked", acceptedDate := some now }
  else
    { a with status := jsOrDefault body.status "checked" }

/-- Mongo `updateOne` on the agreements collection: rewrite the first
document whose `_id` matches, leave everything else alone. -/
def updateFirstById (l : List Agreement) (oid : Nat) (f : Agreement → Agreement) :
    List Agreement :=
  match l with
  | [] => []
  | a :: rest =>
    if a.oid == oid then f a :: rest else a :: updateFirstById rest oid f

/-- Mongo `updateOne` on the users collection with `$set: {role}`:
rewrite the first document whose `email` matches. -/
def updateFirstUserRole (l : List User) (email role : String) : List User :=
  match l with
  | [] => []
  | u :: rest =>
    if u.email == email then { u with role := role } :: rest
    else u :: updateFirstUserRole rest email role

/-- The PATCH /agreements/:id handler body (after the token and admin
gates, for a well-formed id).  It always updates the first matching
agreement with `applyPatchFields`; when the supplied role is
`"member"` it re-reads the agreement and, if found with a truthy
(non-empty) email, promotes that user's role to `"member"`.  It always
answers with the same confirmation message. -/
def patchAgreement (db : Db) (oid : Nat) (body : PatchBody) (now : Nat) :
    Db × String :=
  let agreements1 := updateFirstById db.agreements oid (applyPatchFields body now)
  let db1 :=
    if body.role == some "member" then
      match agreements1.find? (fun a => a.oid == oid) with
      | some ag =>
        if ag.email == "" then { db with agreements := agreements1 }
        else { users := updateFirstUserRole db.users ag.email "member",
               agreements := agreements1 }
      | none => { db with agreements := agreements1 }
    else { db with agreements := agreements1 }
  (db1, "Agreement updated successfully")

/-! ## Occupancy statistics (`app.get("/apartments/stats")`,
src/index.js lines 137-170) -/

/-- The occupancy key `` `${blockName}-${apartmentNo}` ``. -/
def aptKey (blockName apartmentNo : String) : String :=
  blockName ++ "-" ++ apartmentNo

/-- JavaScript `x.toFixed(2)` on the (non-negative) percentages,
modelled over `ℚ`: round to the nearest hundredth, halves away from
zero. -/
def toFixed2 (x : ℚ) : ℚ := (⌊x * 100 + 1 / 2⌋ : ℤ) / 100

/-- The stats response `{ total, availablePercentage,
unavailablePercentage }`. -/
structure Stats where
  total : Nat
  availablePercentage : ℚ
  unavailablePercentage : ℚ
deriving DecidableEq, Repr

/-- The GET /apartments/stats computation: occupied keys are those of
`checked` agreements; `unavailable` counts apartments whose key is
occupied; `available = total − unavailable`; each percentage is
`(part / total · 100).toFixed(2)` guarded by `total ? … : 0`. -/
def computeStats (apartments : List Apartment) (agreements : List Agreement) :
    Stats :=
  let checked := agreements.filter (fun a => a.status == "checked")
  let occupiedKeys := checked.map (fun a => aptKey a.blockName a.apartmentNo)
  let total := apartments.length
  let unavailable := (apartments.filter (fun ap =>
    occupiedKeys.contains (aptKey ap.blockName ap.apartmentNo))).length
  let available := total - unavailable
  { total := total
    availablePercentage :=
      if total != 0 then toFixed2 ((available : ℚ) / (total : ℚ) * 100) else 0
    unavailablePercentage :=
      if total != 0 then toFixed2 ((unavailable : ℚ) / (total : ℚ) * 100) else 0 }

/-! ## Helper lemmas about the embedded operations -/

/-- `updateFirstById` is the identity when no document has the id. -/
theorem updateFirstById_of_not_mem (l : List Agreement) (oid : Nat)
    (f : Agreement → Agreement) (h : ∀ a ∈ l, a.oid ≠ oid) :
    updateFirstById l oid f = l := by
  induction l with
  | nil => rfl
  | cons a rest ih =>
    have ha : a.oid ≠ oid := h a (List.mem_cons_self a rest)
    have hbeq : (a.oid == oid) = false := by simpa using ha
    simp only [updateFirstById, hbeq, Bool.false_eq_true, if_false, List.cons.injEq,
      true_and]
    exact ih fun x hx => h x (List.mem_cons_of_mem a hx)

/-- Searching by id after `updateFirstById` finds the image of what the
search found before, provided the update preserves ids. -/
theorem find?_updateFirstById (l : List Agreement) (oid : Nat)
    (f : Agreement → Agreement) (hf : ∀ a, (f a).oid = a.oid) :
    (updateFirstById l oid f).find? (fun a => a.oid == oid) =
      (l.find? (fun a => a.oid == oid)).map f := by
  induction l with
  | nil => rfl
  | cons a rest ih =>
    by_cases ha : a.oid = oid
    · have hbeq : (a.oid == oid) = true := by simpa using ha
      have hbeq2 : ((f a).oid == oid) = true := by simpa [hf a] using ha
      simp [updateFirstById, List.find?, hbeq, hbeq2]
    · have hbeq : (a.oid == oid) = false := by simpa using ha
      simp [updateFirstById, List.find?, hbeq, ih]

/-- `updateFirstById` keeps the length of the collection. -/
theorem length_updateFirstById (l : List Agreement) (oid : Nat)
    (f : Agreement → Agreement) :
    (updateFirstById l oid f).length = l.length := by
  induction l with
  | nil => rfl
  | cons a rest ih =>
    by_cases ha : (a.oid == oid) = true
    · simp [updateFirstById, ha]
    · simp only [updateFirstById, Bool.not_eq_true] at *
      simp [ha, ih]

/-- In every branch, the PATCH handler stores exactly
`updateFirstById db.agreements oid (applyPatchFields body now)` as the
new agreements collection. -/
theorem patchAgreement_agreements (db : Db) (oid : Nat) (body : PatchBody)
    (now : Nat) :
    (patchAgreement db oid body now).1.agreements =
      updateFirstById db.agreements oid (applyPatchFields body now) := by
  unfold patchAgreement
  dsimp only
  split
  · split
    · split <;> rfl
    · rfl
  · rfl

/-- The PATCH handler always answers with the same confirmation. -/
theorem patchAgreement_message (db : Db) (oid : Nat) (body : PatchBody)
    (now : Nat) :
    (patchAgreement db oid body now).2 = "Agreement updated successfully" := rfl

/-- `applyPatchFields` never changes the id. -/
theorem applyPatchFields_oid (body : PatchBody) (now : Nat) (a : Agreement) :
    (applyPatchFields body now a).oid = a.oid := by
  unfold applyPatchFields
  split <;> rfl

/-- `applyPatchFields` writes `acceptedDate` exactly when the supplied
role is `"member"`. -/
theorem applyPatchFields_acceptedDate (body : PatchBody) (now : Nat)
    (a : Agreement) :
    (applyPatchFields body now a).acceptedDate =
      if body.role = some "member" then some now else a.acceptedDate := by
  unfold applyPatchFields
  by_cases h : body.role = some "member"
  · simp [h]
  · simp [h]

/-- `applyPatchFields` always writes `status := status || "checked"`. -/
theorem applyPatchFields_status (body : PatchBody) (now : Nat) (a : Agreement) :
    (applyPatchFields body now a).status = jsOrDefault body.status "checked" := by
  unfold applyPatchFields
  split <;> rfl

/-- The duplicate check of POST /agreements as the source phrases it:
the first existing agreement owned by the submitter's email in status
`pending` or `checked`. -/
def duplicateCheck (db : Db) (body : Agreement) : Option Agreement :=
  db.agreements.find? (fun a =>
    a.email == body.email && (a.status == "pending" || a.status == "checked"))

/-- The occupant check of POST /agreements: the first user record whose
email belongs to some `checked` agreement on the target apartment and
whose role is `"member"`. -/
def memberCheck (db : Db) (body : Agreement) : Option User :=
  db.users.find? (fun u =>
    ((db.agreements.filter (fun a =>
        a.blockName == body.blockName && a.apartmentNo == body.apartmentNo &&
        a.status == "checked")).map Agreement.email).contains u.email &&
    u.role == "member")

/-- When the duplicate check fires, POST /agreements answers 400 and
leaves the store untouched. -/
theorem postAgreement_duplicate (db : Db) (body : Agreement) (a : Agreement)
    (h : duplicateCheck db body = some a) :
    postAgreement db body = (.duplicateAgreement, db) := by
  unfold postAgreement
  unfold duplicateCheck at h
  rw [h]

/-- When the duplicate check passes and the occupant check fires, POST
/agreements answers 400 and leaves the store untouched. -/
theorem postAgreement_occupied (db : Db) (body : Agreement) (u : User)
    (h1 : duplicateCheck db body = none) (h2 : memberCheck db body = some u) :
    postAgreement db body = (.apartmentOccupied, db) := by
  unfold postAgreement
  unfold duplicateCheck at h1
  unfold memberCheck at h2
  rw [h1]
  dsimp only
  have hpos : (db.agreements.filter (fun a =>
      a.blockName == body.blockName && a.apartmentNo == body.apartmentNo &&
      a.status == "checked")).length > 0 := by
    by_contra hl
    have hnil : (db.agreements.filter (fun a =>
        a.blockName == body.blockName && a.apartmentNo == body.apartmentNo &&
        a.status == "checked")) = [] := by
      cases hc : (db.agreements.filter (fun a =>
          a.blockName == body.blockName && a.apartmentNo == body.apartmentNo &&
          a.status == "checked")) with
      | nil => rfl
      | cons x xs => rw [hc] at hl; simp at hl
    rw [hnil] at h2
    have hu := List.find?_some h2
    simp at hu
  rw [if_pos hpos, h2]

/-- When both checks pass, POST /agreements appends the request body
verbatim. -/
theorem postAgreement_created (db : Db) (body : Agreement)
    (h1 : duplicateCheck db body = none) (h2 : memberCheck db body = none) :
    postAgreement db body =
      (.created, { db with agreements := db.agreements ++ [body] }) := by
  unfold postAgreement
  unfold duplicateCheck at h1
  unfold memberCheck at h2
  rw [h1]
  dsimp only
  by_cases hlen : (db.agreements.filter (fun a =>
      a.blockName == body.blockName && a.apartmentNo == body.apartmentNo &&
      a.status == "checked")).length > 0
  · rw [if_pos hlen, h2]
  · rw [if_neg hlen]

/-! ## Claim theorems -/

/-- C5: every role gate (`verifyUser`, `verifyMember`, `verifyAdmin`)
passes exactly when the user record found by the principal's email
exists and its role string equals the named capability; roles are not
hierarchical, so a principal whose record has role `"admin"` is
rejected (403) by the member-only and user-only gates. -/
theorem C5_role_gates_exact_match (users : List User) (email : String) :
    (verifyUser users email = true ↔
      ∃ u, users.find? (fun x => x.email == email) = some u ∧ u.role = "user") ∧
    (verifyMember users email = true ↔
      ∃ u, users.find? (fun x => x.email == email) = some u ∧ u.role = "member") ∧
    (verifyAdmin users email = true ↔
      ∃ u, users.find? (fun x => x.email == email) = some u ∧ u.role = "admin") ∧
    (∀ u, users.find? (fun x => x.email == email) = some u → u.role = "admin" →
      verifyMember users email = false ∧ verifyUser users email = false) := by
  cases hf : users.find? (fun x => x.email == email) with
  | none =>
    refine ⟨?_, ?_, ?_, ?_⟩ <;>
      simp [verifyUser, verifyMember, verifyAdmin, hf]
  | some u =>
    refine ⟨?_, ?_, ?_, ?_⟩
    · simp [verifyUser, hf]
    · simp [verifyMember, hf]
    · simp [verifyAdmin, hf]
    · intro v hv hrole
      injection hv with hv
      subst hv
      constructor <;> simp [verifyMember, verifyUser, hf, hrole]

/-- C5 witness: a concrete store where the principal's record has role
`"admin"`; the member-only and user-only gates both reject it. -/
theorem C5_witness :
    verifyMember [{ email := "a@x", role := "admin" }] "a@x" = false ∧
    verifyUser [{ email := "a@x", role := "admin" }] "a@x" = false :=
  (C5_role_gates_exact_match [{ email := "a@x", role := "admin" }] "a@x").2.2.2
    { email := "a@x", role := "admin" } (by decide) rfl

/-- C6: the credential middleware answers 401 exactly when no (truthy)
token can be extracted from the authorization header, and 403 exactly
when a token is present but the identity provider rejects it — absence
is never 403 and an invalid credential is never 401. -/
theorem C6_credential_asymmetry (verifyIdToken : String → Option String)
    (authHeader : Option String) :
    (verifyFirebaseToken verifyIdToken authHeader = .unauthenticated ↔
      extractToken authHeader = none) ∧
    (verifyFirebaseToken verifyIdToken authHeader = .forbidden ↔
      ∃ t, extractToken authHeader = some t ∧ verifyIdToken t = none) := by
  cases authHeader with
  | none => simp [verifyFirebaseToken, extractToken]
  | some h =>
    by_cases hh : h = ""
    · subst hh
      simp [verifyFirebaseToken, extractToken]
    · have hb : (h == "") = false := by simpa using hh
      cases ht : (jsSplitSpace h)[1]? with
      | none => simp [verifyFirebaseToken, extractToken, hb, ht]
      | some t =>
        by_cases h0 : t = ""
        · subst h0
          simp [verifyFirebaseToken, extractToken, hb, ht]
        · have hb0 : (t == "") = false := by simpa using h0
          cases hv : verifyIdToken t with
          | none => simp [verifyFirebaseToken, extractToken, hb, ht, hb0, hv]
          | some e => simp [verifyFirebaseToken, extractToken, hb, ht, hb0, hv]

/-- C6 witness: with an identity provider that rejects every token, a
present-but-invalid bearer token is reported 403, and a missing header
is reported 401. -/
theorem C6_witness :
    verifyFirebaseToken (fun _ => none) (some "Bearer tok") = .forbidden ∧
    verifyFirebaseToken (fun _ => none) none = .unauthenticated :=
  ⟨((C6_credential_asymmetry (fun _ => none) (some "Bearer tok")).2).mpr
      ⟨"tok", by decide, rfl⟩,
    ((C6_credential_asymmetry (fun _ => none) none).1).mpr rfl⟩

/-- C4: when the store already holds an agreement owned by the
submitter's email in status `pending` or `checked`, POST /agreements
answers 400 (DuplicateAgreement) and the store is returned unchanged —
no insert happens. -/
theorem C4_duplicate_rejected (db : Db) (body : Agreement)
    (h : ∃ a ∈ db.agreements, a.email = body.email ∧
      (a.status = "pending" ∨ a.status = "checked")) :
    postAgreement db body = (.duplicateAgreement, db) := by
  have hsome : (duplicateCheck db body).isSome := by
    unfold duplicateCheck
    rw [List.find?_isSome]
    obtain ⟨a, ha, he, hs⟩ := h
    refine ⟨a, ha, ?_⟩
    rcases hs with h' | h' <;> simp [he, h']
  obtain ⟨a, ha⟩ := Option.isSome_iff_exists.mp hsome
  exact postAgreement_duplicate db body a ha

/-- C4 witness: a submitter who already holds a `pending` agreement is
rejected with the store unchanged. -/
theorem C4_witness :
    postAgreement
        ⟨[⟨"a@x", "user"⟩], [⟨1, "a@x", "B", "101", "pending", none⟩]⟩
        ⟨2, "a@x", "C", "202", "pending", none⟩ =
      (.duplicateAgreement,
        ⟨[⟨"a@x", "user"⟩], [⟨1, "a@x", "B", "101", "pending", none⟩]⟩) :=
  C4_duplicate_rejected _ _
    ⟨⟨1, "a@x", "B", "101", "pending", none⟩, by decide, rfl, Or.inl rfl⟩

/-- C1 counterexample: on an empty store (both conflict checks pass), a
request body carrying status `"checked"` is persisted with status
`"checked"`, not `"pending"` — the handler never forces the status. -/
theorem C1_counterexample :
    (postAgreement ⟨[], []⟩ ⟨1, "b@x", "B", "101", "checked", none⟩).1 =
        .created ∧
    ((postAgreement ⟨[], []⟩ ⟨1, "b@x", "B", "101", "checked", none⟩).2.agreements.map
        Agreement.status) = ["checked"] ∧
    ("checked" : String) ≠ "pending" := by decide

/-- C1 amended: a request that passes both conflict checks is persisted
verbatim — the stored agreement keeps exactly the caller-supplied
status (nothing forces `"pending"`). -/
theorem C1_insert_keeps_caller_status (db : Db) (body : Agreement)
    (h : (postAgreement db body).1 = .created) :
    (postAgreement db body).2 =
      { db with agreements := db.agreements ++ [body] } := by
  cases h1 : duplicateCheck db body with
  | some a =>
    rw [postAgreement_duplicate db body a h1] at h
    simp at h
  | none =>
    cases h2 : memberCheck db body with
    | some u =>
      rw [postAgreement_occupied db body u h1 h2] at h
      simp at h
    | none => rw [postAgreement_created db body h1 h2]

/-- C1 amended witness: the empty-store submission with caller-supplied
status `"checked"` ends up stored exactly as sent. -/
theorem C1_witness :
    (postAgreement ⟨[], []⟩ ⟨1, "b@x", "B", "101", "checked", none⟩).2 =
      ⟨[], [⟨1, "b@x", "B", "101", "checked", none⟩]⟩ :=
  C1_insert_keeps_caller_status _ _ (by decide)

/-- C9: a decide call whose (well-formed) id matches no stored
agreement still answers the success confirmation, and the whole store —
agreements and user roles — is returned unchanged. -/
theorem C9_missing_id_is_noop_success (db : Db) (oid : Nat) (body : PatchBody)
    (now : Nat) (h : ∀ a ∈ db.agreements, a.oid ≠ oid) :
    patchAgreement db oid body now = (db, "Agreement updated successfully") := by
  have hupd : updateFirstById db.agreements oid (applyPatchFields body now) =
      db.agreements := updateFirstById_of_not_mem _ _ _ h
  have hfind : db.agreements.find? (fun a => a.oid == oid) = none := by
    rw [List.find?_eq_none]
    intro a ha
    simpa using h a ha
  unfold patchAgreement
  dsimp only
  rw [hupd, hfind]
  split <;> rfl

/-- C9 witness: patching id 2 in a store that only holds agreement 1
answers the confirmation and changes nothing, even with
`role = "member"` supplied. -/
theorem C9_witness :
    patchAgreement ⟨[⟨"a@x", "user"⟩], [⟨1, "a@x", "B", "101", "pending", none⟩]⟩
        2 ⟨some "checked", some "member"⟩ 7 =
      (⟨[⟨"a@x", "user"⟩], [⟨1, "a@x", "B", "101", "pending", none⟩]⟩,
        "Agreement updated successfully") :=
  C9_missing_id_is_noop_success _ _ _ _ (by decide)

/-- C2 counterexample: a reachable trace — create a pending agreement,
then decide it with status `"rejected"` and role `"member"` — ends with
`acceptedDate` set on an agreement whose status is the terminal value
`"rejected"`, never `"checked"`. -/
theorem C2_counterexample :
    ((patchAgreement
        (postAgreement ⟨[⟨"a@x", "user"⟩], []⟩
          ⟨1, "a@x", "B", "101", "pending", none⟩).2 1
        ⟨some "rejected", some "member"⟩ 5).1.agreements.map
        (fun a => (a.status, a.acceptedDate))) = [("rejected", some 5)] ∧
    ("rejected" : String) ≠ "checked" := by decide

/-- C2 amended: a decide call overwrites the matched agreement's
`acceptedDate` (to the current time) exactly when the supplied role is
`"member"`, independently of the supplied status value; with any other
role the field keeps its previous value. -/
theorem C2_acceptedDate_tracks_role (db : Db) (oid : Nat) (body : PatchBody)
    (now : Nat) (a : Agreement)
    (h : db.agreements.find? (fun x => x.oid == oid) = some a) :
    (patchAgreement db oid body now).1.agreements.find? (fun x => x.oid == oid) =
        some (applyPatchFields body now a) ∧
    (applyPatchFields body now a).acceptedDate =
      (if body.role = some "member" then some now else a.acceptedDate) := by
  constructor
  · rw [patchAgreement_agreements,
      find?_updateFirstById _ _ _ (applyPatchFields_oid body now), h]
    rfl
  · exact applyPatchFields_acceptedDate body now a

/-- C2 amended witness: deciding agreement 1 with status `"rejected"`
and role `"member"` stores `acceptedDate = 5`. -/
theorem C2_witness :
    (patchAgreement ⟨[⟨"a@x", "user"⟩], [⟨1, "a@x", "B", "101", "pending", none⟩]⟩
        1 ⟨some "rejected", some "member"⟩ 5).1.agreements.find?
        (fun x => x.oid == 1) =
      some (applyPatchFields ⟨some "rejected", some "member"⟩ 5
        ⟨1, "a@x", "B", "101", "pending", none⟩) :=
  (C2_acceptedDate_tracks_role _ 1 _ 5 _ (by decide)).1

/-- C7 counterexample: a supplied status value of `""` is falsy in
`status || "checked"`, so the stored status becomes `"checked"` rather
than the admin-supplied value. -/
theorem C7_counterexample :
    ((patchAgreement ⟨[], [⟨1, "a@x", "B", "101", "pending", none⟩]⟩ 1
        ⟨some "", none⟩ 0).1.agreements.map Agreement.status = ["checked"]) ∧
    ("checked" : String) ≠ "" := by decide

/-- C7 amended: a decide call on an existing agreement stores the
admin-supplied status whenever that value is non-empty, and stores
`"checked"` when the status field is omitted or empty (JavaScript
`status || "checked"`). -/
theorem C7_status_default_checked (db : Db) (oid : Nat) (body : PatchBody)
    (now : Nat) (a : Agreement)
    (h : db.agreements.find? (fun x => x.oid == oid) = some a) :
    (patchAgreement db oid body now).1.agreements.find? (fun x => x.oid == oid) =
        some (applyPatchFields body now a) ∧
    (∀ s, body.status = some s → s ≠ "" →
      (applyPatchFields body now a).status = s) ∧
    ((body.status = none ∨ body.status = some "") →
      (applyPatchFields body now a).status = "checked") := by
  refine ⟨?_, ?_, ?_⟩
  · rw [patchAgreement_agreements,
      find?_updateFirstById _ _ _ (applyPatchFields_oid body now), h]
    rfl
  · intro s hs hne
    rw [applyPatchFields_status, hs]
    unfold jsOrDefault
    simp [hne]
  · intro hcase
    rw [applyPatchFields_status]
    rcases hcase with hc | hc <;> simp [jsOrDefault, hc]

/-- C7 amended witness: supplying status `"rejected"` stores
`"rejected"`; omitting the status stores `"checked"`. -/
theorem C7_witness :
    (applyPatchFields ⟨some "rejected", none⟩ 0
        ⟨1, "a@x", "B", "101", "pending", none⟩).status = "rejected" ∧
    (applyPatchFields ⟨none, none⟩ 0
        ⟨1, "a@x", "B", "101", "pending", none⟩).status = "checked" :=
  ⟨(C7_status_default_checked ⟨[], [⟨1, "a@x", "B", "101", "pending", none⟩]⟩ 1
      ⟨some "rejected", none⟩ 0 _ (by decide)).2.1 "rejected" rfl (by decide),
    (C7_status_default_checked ⟨[], [⟨1, "a@x", "B", "101", "pending", none⟩]⟩ 1
      ⟨none, none⟩ 0 _ (by decide)).2.2 (Or.inl rfl)⟩

/-- Field-by-field equality of two agreements, `status` excepted: used
to state the PATCH frame condition. -/
def sameExceptStatus (a b : Agreement) : Bool :=
  a.oid == b.oid && a.email == b.email && a.blockName == b.blockName &&
  a.apartmentNo == b.apartmentNo && a.acceptedDate == b.acceptedDate

theorem sameExceptStatus_self (a : Agreement) : sameExceptStatus a a = true := by
  simp [sameExceptStatus]

theorem zip_all_sameExceptStatus_self (l : List Agreement) :
    ((l.zip l).all fun p => sameExceptStatus p.1 p.2) = true := by
  induction l with
  | nil => rfl
  | cons a rest ih => simp [List.zip_cons_cons, List.all_cons, sameExceptStatus_self, ih]

theorem zip_all_updateFirstById (l : List Agreement) (oid : Nat)
    (f : Agreement → Agreement) (hf : ∀ a, sameExceptStatus a (f a) = true) :
    ((l.zip (updateFirstById l oid f)).all fun p => sameExceptStatus p.1 p.2) = true := by
  induction l with
  | nil => rfl
  | cons a rest ih =>
    by_cases ha : (a.oid == oid) = true
    · simp [updateFirstById, ha, List.zip_cons_cons, List.all_cons, hf a,
        zip_all_sameExceptStatus_self]
    · have hb : (a.oid == oid) = false := by simpa using ha
      simp [updateFirstById, hb, List.zip_cons_cons, List.all_cons,
        sameExceptStatus_self, ih]

/-- C10: a decide call whose supplied role is not `"member"` writes
only the `status` field — the users collection is untouched, the
agreements collection keeps its length, and every agreement keeps its
id, email, blockName, apartmentNo and acceptedDate. -/
theorem C10_frame_non_member (db : Db) (oid : Nat) (body : PatchBody)
    (now : Nat) (hrole : body.role ≠ some "member") :
    (patchAgreement db oid body now).1.users = db.users ∧
    (patchAgreement db oid body now).1.agreements.length =
      db.agreements.length ∧
    ((db.agreements.zip (patchAgreement db oid body now).1.agreements).all
      fun p => sameExceptStatus p.1 p.2) = true := by
  have hb : (body.role == some "member") = false := by simpa using hrole
  have hframe : ∀ a, sameExceptStatus a (applyPatchFields body now a) = true := by
    intro a
    unfold applyPatchFields
    rw [hb]
    simp [sameExceptStatus]
  refine ⟨?_, ?_, ?_⟩
  · unfold patchAgreement
    dsimp only
    simp [hb]
  · rw [patchAgreement_agreements, length_updateFirstById]
  · rw [patchAgreement_agreements]
    exact zip_all_updateFirstById _ _ _ hframe

/-- C10 witness: deciding agreement 1 with status `"rejected"` and no
role leaves users and all non-status fields unchanged. -/
theorem C10_witness :
    (patchAgreement ⟨[⟨"a@x", "user"⟩], [⟨1, "a@x", "B", "101", "pending", none⟩]⟩
        1 ⟨some "rejected", none⟩ 9).1.users = [⟨"a@x", "user"⟩] ∧
    (patchAgreement ⟨[⟨"a@x", "user"⟩], [⟨1, "a@x", "B", "101", "pending", none⟩]⟩
        1 ⟨some "rejected", none⟩ 9).1.agreements.length =
      [(⟨1, "a@x", "B", "101", "pending", none⟩ : Agreement)].length ∧
    (([(⟨1, "a@x", "B", "101", "pending", none⟩ : Agreement)].zip
        (patchAgreement ⟨[⟨"a@x", "user"⟩], [⟨1, "a@x", "B", "101", "pending", none⟩]⟩
          1 ⟨some "rejected", none⟩ 9).1.agreements).all
      fun p => sameExceptStatus p.1 p.2) = true :=
  C10_frame_non_member _ 1 _ 9 (by decide)

/-- A genuine occupant of `(blockName, apartmentNo)`: some stored
`checked` agreement on that apartment whose owner email is carried by a
user record with role `"member"`. -/
def blockingOccupant (db : Db) (blockName apartmentNo : String) : Prop :=
  ∃ a ∈ db.agreements, a.blockName = blockName ∧ a.apartmentNo = apartmentNo ∧
    a.status = "checked" ∧ ∃ u ∈ db.users, u.email = a.email ∧ u.role = "member"

/-- The occupant check of POST /agreements fires exactly when the target
apartment has a genuine (`checked` + role `member`) occupant. -/
theorem memberCheck_isSome_iff (db : Db) (body : Agreement) :
    (memberCheck db body).isSome ↔
      blockingOccupant db body.blockName body.apartmentNo := by
  unfold memberCheck blockingOccupant
  rw [List.find?_isSome]
  simp only [Bool.and_eq_true, beq_iff_eq, List.contains_iff_exists_mem_beq,
    List.mem_map, List.mem_filter]
  constructor
  · rintro ⟨u, hu, ⟨e, ⟨a, ⟨ha, hprop⟩, hea⟩, hue⟩, hrole⟩
    obtain ⟨⟨hbn, han⟩, hst⟩ := hprop
    exact ⟨a, ha, hbn, han, hst, u, hu, by rw [hue, hea], hrole⟩
  · rintro ⟨a, ha, hbn, han, hst, u, hu, hue, hrole⟩
    exact ⟨u, hu, ⟨a.email, ⟨a, ⟨ha, ⟨hbn, han⟩, hst⟩, rfl⟩, hue⟩, hrole⟩

/-- C3: provided the submitter has no pending/checked agreement of
their own, POST /agreements answers 400 (ApartmentOccupied) exactly
when the target apartment has a `checked` agreement whose owner's user
record has role `"member"` — in which case nothing is inserted — and
otherwise succeeds, appending the submission (drift-tolerant: a
`checked` agreement whose owner was never promoted does not block). -/
theorem C3_occupancy_check (db : Db) (body : Agreement)
    (hdup : ∀ a ∈ db.agreements,
      ¬(a.email = body.email ∧ (a.status = "pending" ∨ a.status = "checked"))) :
    ((postAgreement db body).1 = .apartmentOccupied ↔
      blockingOccupant db body.blockName body.apartmentNo) ∧
    ((postAgreement db body).1 = .apartmentOccupied →
      (postAgreement db body).2 = db) ∧
    (¬ blockingOccupant db body.blockName body.apartmentNo →
      postAgreement db body =
        (.created, { db with agreements := db.agreements ++ [body] })) := by
  have h1 : duplicateCheck db body = none := by
    unfold duplicateCheck
    rw [List.find?_eq_none]
    intro a ha
    have hna := hdup a ha
    simp only [Bool.and_eq_true, Bool.or_eq_true, beq_iff_eq]
    tauto
  cases h2 : memberCheck db body with
  | some u =>
    have hocc := postAgreement_occupied db body u h1 h2
    have hblock : blockingOccupant db body.blockName body.apartmentNo := by
      rw [← memberCheck_isSome_iff, h2]
      rfl
    rw [hocc]
    refine ⟨?_, fun _ => rfl, fun hn => absurd hblock hn⟩
    simpa using hblock
  | none =>
    have hcre := postAgreement_created db body h1 h2
    have hblock : ¬ blockingOccupant db body.blockName body.apartmentNo := by
      rw [← memberCheck_isSome_iff, h2]
      simp
    rw [hcre]
    refine ⟨?_, ?_, fun _ => rfl⟩
    · simpa using hblock
    · intro hx
      simp at hx

/-- C3 witness: user B's submission for the apartment held by a
`checked` + `member` agreement of user A is characterised by the
occupancy check (and here the occupant is genuine, so it is rejected
with the store unchanged). -/
theorem C3_witness :
    ((postAgreement
        ⟨[⟨"a@x", "member"⟩, ⟨"b@x", "user"⟩],
          [⟨1, "a@x", "B", "101", "checked", some 3⟩]⟩
        ⟨2, "b@x", "B", "101", "pending", none⟩).1 = .apartmentOccupied ↔
      blockingOccupant
        ⟨[⟨"a@x", "member"⟩, ⟨"b@x", "user"⟩],
          [⟨1, "a@x", "B", "101", "checked", some 3⟩]⟩ "B" "101") ∧
    ((postAgreement
        ⟨[⟨"a@x", "member"⟩, ⟨"b@x", "user"⟩],
          [⟨1, "a@x", "B", "101", "checked", some 3⟩]⟩
        ⟨2, "b@x", "B", "101", "pending", none⟩).1 = .apartmentOccupied →
      (postAgreement
        ⟨[⟨"a@x", "member"⟩, ⟨"b@x", "user"⟩],
          [⟨1, "a@x", "B", "101", "checked", some 3⟩]⟩
        ⟨2, "b@x", "B", "101", "pending", none⟩).2 =
        ⟨[⟨"a@x", "member"⟩, ⟨"b@x", "user"⟩],
          [⟨1, "a@x", "B", "101", "checked", some 3⟩]⟩) ∧
    (¬ blockingOccupant
        ⟨[⟨"a@x", "member"⟩, ⟨"b@x", "user"⟩],
          [⟨1, "a@x", "B", "101", "checked", some 3⟩]⟩ "B" "101" →
      postAgreement
        ⟨[⟨"a@x", "member"⟩, ⟨"b@x", "user"⟩],
          [⟨1, "a@x", "B", "101", "checked", some 3⟩]⟩
        ⟨2, "b@x", "B", "101", "pending", none⟩ =
        (.created,
          ⟨[⟨"a@x", "member"⟩, ⟨"b@x", "user"⟩],
            [⟨1, "a@x", "B", "101", "checked", some 3⟩,
              ⟨2, "b@x", "B", "101", "pending", none⟩]⟩)) :=
  C3_occupancy_check
    ⟨[⟨"a@x", "member"⟩, ⟨"b@x", "user"⟩],
      [⟨1, "a@x", "B", "101", "checked", some 3⟩]⟩
    ⟨2, "b@x", "B", "101", "pending", none⟩ (by decide)

/-- C8: the stats computation reports `total` as the apartment count;
with an empty apartment list both percentages are `0` (the `total ? … :
0` guard — no division happens), and with a non-empty list each
percentage is the corresponding ratio times 100 rounded to two decimal
places. -/
theorem C8_stats_no_division_by_zero (apartments : List Apartment)
    (agreements : List Agreement) :
    (computeStats apartments agreements).total = apartments.length ∧
    (apartments.length = 0 →
      (computeStats apartments agreements).availablePercentage = 0 ∧
      (computeStats apartments agreements).unavailablePercentage = 0) ∧
    (apartments.length ≠ 0 →
      (computeStats apartments agreements).availablePercentage =
        toFixed2 (((apartments.length -
          (apartments.filter (fun ap =>
            ((agreements.filter (fun a => a.status == "checked")).map
              (fun a => aptKey a.blockName a.apartmentNo)).contains
              (aptKey ap.blockName ap.apartmentNo))).length : Nat) : ℚ) /
          (apartments.length : ℚ) * 100) ∧
      (computeStats apartments agreements).unavailablePercentage =
        toFixed2 (((apartments.filter (fun ap =>
            ((agreements.filter (fun a => a.status == "checked")).map
              (fun a => aptKey a.blockName a.apartmentNo)).contains
              (aptKey ap.blockName ap.apartmentNo))).length : ℚ) /
          (apartments.length : ℚ) * 100)) := by
  refine ⟨rfl, ?_, ?_⟩
  · intro h0
    simp [computeStats, h0]
  · intro hne
    have hb : (apartments.length != 0) = true := by simpa using hne
    constructor <;> simp [computeStats, hb]

/-- C8 witness: the empty apartment list reports total `0` and both
percentages `0`; a one-apartment list with its apartment occupied
reports the rounded ratios. -/
theorem C8_witness :
    ((computeStats [] []).availablePercentage = 0 ∧
      (computeStats [] []).unavailablePercentage = 0) ∧
    (computeStats [⟨"B", "101"⟩] [⟨1, "a@x", "B", "101", "checked", none⟩]).availablePercentage =
      toFixed2 ((((1 : Nat) -
        ([(⟨"B", "101"⟩ : Apartment)].filter (fun ap =>
          (([(⟨1, "a@x", "B", "101", "checked", none⟩ : Agreement)].filter
            (fun a => a.status == "checked")).map
            (fun a => aptKey a.blockName a.apartmentNo)).contains
            (aptKey ap.blockName ap.apartmentNo))).length : Nat) : ℚ) /
        ((1 : Nat) : ℚ) * 100) :=
  ⟨(C8_stats_no_division_by_zero [] []).2.1 rfl,
    ((C8_stats_no_division_by_zero [⟨"B", "101"⟩]
      [⟨1, "a@x", "B", "101", "checked", none⟩]).2.2 (by decide)).1⟩

end BrickBase
